import Mathlib

/-!
Shallow embedding of the user-registration coordination core:
`registerUser`, `registerCognitoUser`, `getCognitoUserId`, `checkCollisions`
from `src/services/user/register.ts`, and the DynamoDB conditional-insert
wrapper `createUser` from the user-table create module.

External collaborators (the Cognito identity provider, the DynamoDB client,
the logger, the nanoid generator and the clock) are modelled by an explicit
environment `Env` supplying their responses, and every outbound call is
recorded in an event trace so that claims about which calls occur can be
stated and proved.
-/

/-- Cognito attribute: in the AWS SDK both `Name` and `Value` are optional
strings (`string | undefined`). -/
structure AttributeType where
  Name : Option String
  Value : Option String
deriving DecidableEq

/-- Cognito user record as used by the code: only the `Attributes` list is
read, and in the SDK it is optional (`AttributeType[] | undefined`). -/
structure UserType where
  Attributes : Option (List AttributeType)
deriving DecidableEq

/-- Nested bio structure of the profile record. -/
structure UserBio where
  avatarUrl : String
deriving DecidableEq

/-- The persisted profile record, field for field as assembled in
`registerUser` (`src/services/user/register.ts`). -/
structure User where
  id : String
  createdAt : String
  email : String
  name : String
  handle : String
  activationCode : String
  sourceIp : String
  role : String
  status : String
  badges : List String
  bio : UserBio
  data : List (String × String)
  sourceSystem : String
deriving DecidableEq

/-- Modelled from the spec: the `UserModel` class wrapping a profile record is
not part of the provided sources; the spec describes the result as a profile
model object exposing the record's fields, so it is modelled as a wrapper. -/
structure UserModel where
  user : User
deriving DecidableEq

/-- Inbound creation request shape. -/
structure UserCreateInput where
  name : String
  email : String
  password : String
  repeatPassword : String
  sourceIp : String
  sourceSystem : String
deriving DecidableEq

/-- Errors surfaced by the embedded code: HTTP-style errors created with
`createError(status, message)`, and a JavaScript `TypeError` for a
dereference of `undefined`. -/
inductive Err where
  | http (status : Nat) (msg : String)
  | typeError (msg : String)
deriving DecidableEq

/-- One outbound call or log statement, recorded in order of occurrence. -/
inductive Event where
  | logDebug (msg : String)
  | logInfo (msg : String)
  | logError (msg : String)
  | cognitoCreateUser (email name : String)
  | cognitoSetPassword (email password : String)
  | cognitoAddGroups (email : String) (groups : List String)
  | dynamoGetByActivationCode (code : String)
  | dynamoGetById (id : String)
  | dynamoPutItem (u : User)
deriving DecidableEq

/-- Responses of the external collaborators for one registration run:
the Cognito user returned by `createCognitoUser`, the value of `getNanoId()`,
the clock value used for `createdAt`, the current DynamoDB table contents
(read by the point lookups), and the error thrown by the PutItem call, if
any (`none` means the conditional insert succeeds). -/
structure Env where
  cognitoUser : UserType
  nanoId : String
  now : String
  store : List User
  putError : Option (String × String)

/-- Point lookup by the secondary attribute `activationCode`
(`getUserByActivationCode` in the user-table get module): at most one
matching record. -/
def getUserByActivationCode (code : String) (store : List User) : Option User :=
  store.find? (fun u => u.activationCode = code)

/-- Point lookup by primary key `id` (`getUserById` in the user-table get
module). -/
def getUserById (id : String) (store : List User) : Option User :=
  store.find? (fun u => u.id = id)

/-- JavaScript falsiness of a `string | undefined` value, as tested by
`if (!id)`: `undefined` and the empty string are falsy. -/
def isFalsy : Option String → Bool
  | none => true
  | some s => s = ""

/-- Embedding of `getCognitoUserId`: destructures `Attributes` from the
Cognito user and calls `.find` on it. When `Attributes` is `undefined` the
JavaScript call `Attributes.find(...)` throws a `TypeError`; otherwise the
result is `sub?.Value`. -/
def getCognitoUserId (user : UserType) : Except Err (Option String) :=
  match user.Attributes with
  | none => Except.error (Err.typeError "TypeError: Attributes is undefined")
  | some attrs =>
      let sub : Option AttributeType := attrs.find? (fun attr => attr.Name = some "sub")
      Except.ok (sub.bind (fun a => a.Value))

/-- Embedding of `checkCollisions`: reject a falsy id, then look up the
candidate activation code, then the candidate id, failing with a 500-class
error (after an error-level log) on either collision. Returns the result
together with the trace of calls made. -/
def checkCollisions (id : Option String) (activationCode : String)
    (store : List User) : Except Err Unit × List Event :=
  if isFalsy id then
    (Except.error (Err.http 500
       "User registration failed: Cognito did not return a sub/id"), [])
  else
    match getUserByActivationCode activationCode store with
    | some _ =>
        (Except.error (Err.http 500
           "User registration failed: activationCode collision"),
         [Event.dynamoGetByActivationCode activationCode,
          Event.logError "User activationCode collision"])
    | none =>
        match getUserById (id.getD "") store with
        | some _ =>
            (Except.error (Err.http 500
               "User registration failed: User id collision"),
             [Event.dynamoGetByActivationCode activationCode,
              Event.dynamoGetById (id.getD ""),
              Event.logError "User ID collision"])
        | none =>
            (Except.ok (),
             [Event.dynamoGetByActivationCode activationCode,
              Event.dynamoGetById (id.getD "")])

/-- Embedding of the DynamoDB `createUser` (conditional insert with
`attribute_not_exists(id)`): `putError` is the error thrown by
`client.send`, if any. A `ConditionalCheckFailedException` maps to a
400-class already-exists error; any other error is logged with its name and
message and maps to a 500-class generic error. The `dynamoPutItem` event
records that the PutItem call was issued. -/
def createUser (user : User) (putError : Option (String × String)) :
    Except Err Unit × List Event :=
  match putError with
  | none => (Except.ok (), [Event.dynamoPutItem user])
  | some (name, message) =>
      if name = "ConditionalCheckFailedException" then
        (Except.error (Err.http 400 ("User id " ++ user.id ++ " already exists")),
         [Event.dynamoPutItem user])
      else
        (Except.error (Err.http 500 "User registration error"),
         [Event.dynamoPutItem user,
          Event.logError ("createUser " ++ name ++ ": " ++ message)])

/-- Embedding of `registerCognitoUser`: create the Cognito user, set the
password, add to the given group; the Cognito response comes from the
environment. -/
def registerCognitoUser (email name password group : String) (env : Env) :
    UserType × List Event :=
  (env.cognitoUser,
   [Event.cognitoCreateUser email name,
    Event.cognitoSetPassword email password,
    Event.cognitoAddGroups email [group]])

/-- Helper used by `collapseSpaces`: collapse runs of whitespace to a single
space; `prevSpace` records whether the previous emitted character was the
collapsing space. -/
def collapseChars : List Char → Bool → List Char
  | [], _ => []
  | c :: cs, prevSpace =>
      if c.isWhitespace then
        if prevSpace then collapseChars cs true
        else ' ' :: collapseChars cs true
      else c :: collapseChars cs false

/-- Drop whitespace at both ends of a character list. -/
def trimChars (l : List Char) : List Char :=
  ((l.dropWhile Char.isWhitespace).reverse.dropWhile Char.isWhitespace).reverse

/-- Modelled from the spec: `collapseSpaces` from the string utilities module
is not part of the provided sources; the spec says name and email are
normalized by collapsing internal whitespace runs to single spaces and
trimming the ends. -/
def collapseSpaces (s : String) (trimEnds : Bool) : String :=
  let collapsed := collapseChars s.toList false
  if trimEnds then String.mk (trimChars collapsed) else String.mk collapsed

/-- Split a character list into its space-separated words; `acc` holds the
current word in reverse. -/
def wordsAux : List Char → List Char → List (List Char)
  | [], acc => if acc.isEmpty then [] else [acc.reverse]
  | c :: cs, acc =>
      if c = ' ' then
        if acc.isEmpty then wordsAux cs [] else acc.reverse :: wordsAux cs []
      else wordsAux cs (c :: acc)

/-- Capitalize the first character of a word and lowercase the rest. -/
def capitalizeWord : List Char → List Char
  | [] => []
  | c :: rest => c.toUpper :: rest.map Char.toLower

/-- Modelled from the spec: `toPascalCase` from the string utilities module
is not part of the provided sources; the spec shows the handle derived from
a normalized name, with scenario value `@JaneDoe` for name `Jane Doe`, i.e.
the space-separated words capitalized and concatenated. -/
def toPascalCase (s : String) : String :=
  String.mk (((wordsAux s.toList []).map capitalizeWord).flatten)

/-- Modelled from the spec: the default avatar constant is not part of the
provided sources; its value is irrelevant to every claim. -/
def DEFAULT_USER_AVATAR_URL : String := "default-avatar-url"

/-- Embedding of `registerUser`: the full coordination sequence of
`src/services/user/register.ts`, returning the result together with the
trace of outbound calls and log statements. -/
def registerUser (input : UserCreateInput) (env : Env) :
    Except Err UserModel × List Event :=
  let ev0 : List Event := [Event.logDebug "Start user registration"]
  if input.password ≠ input.repeatPassword then
    (Except.error (Err.http 400 "Password and repeat password must match"), ev0)
  else
    let name := collapseSpaces input.name true
    let email := collapseSpaces input.email true
    let cog := registerCognitoUser email name input.password "USER" env
    match getCognitoUserId cog.1 with
    | Except.error e => (Except.error e, ev0 ++ cog.2)
    | Except.ok id =>
        match checkCollisions id env.nanoId env.store with
        | (Except.error e, ev2) => (Except.error e, ev0 ++ cog.2 ++ ev2)
        | (Except.ok _, ev2) =>
            let user : User :=
              { id := id.getD ""
                createdAt := env.now
                email := email
                name := name
                handle := "@" ++ toPascalCase name
                activationCode := env.nanoId
                sourceIp := input.sourceIp
                role := "USER"
                status := "UNCONFIRMED"
                badges := ["NEW_MEMBER"]
                bio := { avatarUrl := DEFAULT_USER_AVATAR_URL }
                data := []
                sourceSystem := input.sourceSystem }
            match createUser user env.putError with
            | (Except.error e, ev3) => (Except.error e, ev0 ++ cog.2 ++ ev2 ++ ev3)
            | (Except.ok _, ev3) =>
                (Except.ok { user := user },
                 ev0 ++ cog.2 ++ ev2 ++ ev3 ++
                   [Event.logInfo "New user registration complete"])

/-- A call to the identity provider. -/
def isCognitoEvent : Event → Bool
  | Event.cognitoCreateUser _ _ => true
  | Event.cognitoSetPassword _ _ => true
  | Event.cognitoAddGroups _ _ => true
  | _ => false

/-- A call to the profile store (lookup or insert). -/
def isStoreEvent : Event → Bool
  | Event.dynamoGetByActivationCode _ => true
  | Event.dynamoGetById _ => true
  | Event.dynamoPutItem _ => true
  | _ => false

/-- A profile-store insert call. -/
def isPutEvent : Event → Bool
  | Event.dynamoPutItem _ => true
  | _ => false

/-- A profile-store lookup by primary key. -/
def isGetByIdEvent : Event → Bool
  | Event.dynamoGetById _ => true
  | _ => false

/-- An error-level log statement. -/
def isErrorLogEvent : Event → Bool
  | Event.logError _ => true
  | _ => false

/-- Interpretation of a trace against the store: only a (successful) insert
mutates the table, every other event leaves it unchanged. -/
def applyEvent (store : List User) : Event → List User
  | Event.dynamoPutItem u => store ++ [u]
  | _ => store

/-- Replay a trace against the store. -/
def applyEvents (store : List User) (evs : List Event) : List User :=
  evs.foldl applyEvent store

/-- Whether a registration outcome is an HTTP-style error (of any status),
as opposed to success or an unhandled JavaScript type error. -/
def resultIsHttpError : Except Err UserModel → Bool
  | Except.error (Err.http _ _) => true
  | _ => false

/-- C1: a creation request whose password and repeatPassword differ fails
with the 400-class password-mismatch error, and the trace contains no
identity-provider call and no profile-store call. -/
theorem c1_password_mismatch (input : UserCreateInput) (env : Env)
    (h : input.password ≠ input.repeatPassword) :
    (registerUser input env).1 =
      Except.error (Err.http 400 "Password and repeat password must match") ∧
    ∀ e ∈ (registerUser input env).2,
      isCognitoEvent e = false ∧ isStoreEvent e = false := by
  constructor
  · simp [registerUser, h]
  · intro e he
    simp [registerUser, h] at he
    subst he
    exact ⟨rfl, rfl⟩

/-- Witness for C1 at a concrete mismatching input. -/
theorem c1_password_mismatch_witness :
    (registerUser
        { name := "n", email := "e", password := "p", repeatPassword := "q",
          sourceIp := "ip", sourceSystem := "web" }
        { cognitoUser := { Attributes := none }, nanoId := "c", now := "t",
          store := [], putError := none }).1 =
      Except.error (Err.http 400 "Password and repeat password must match") ∧
    ∀ e ∈ (registerUser
        { name := "n", email := "e", password := "p", repeatPassword := "q",
          sourceIp := "ip", sourceSystem := "web" }
        { cognitoUser := { Attributes := none }, nanoId := "c", now := "t",
          store := [], putError := none }).2,
      isCognitoEvent e = false ∧ isStoreEvent e = false :=
  c1_password_mismatch _ _ (by decide)

/-- A falsy `string | undefined` is `undefined` or the empty string. -/
theorem isFalsy_false (id : Option String) (h : isFalsy id = false) :
    ∃ s, id = some s ∧ s ≠ "" := by
  cases id with
  | none => simp [isFalsy] at h
  | some s => exact ⟨s, rfl, by simpa [isFalsy] using h⟩

/-- If the collision guard succeeds, the candidate id was not falsy. -/
theorem checkCollisions_ok_not_falsy (id : Option String) (code : String)
    (store : List User) (h : (checkCollisions id code store).1 = Except.ok ()) :
    isFalsy id = false := by
  by_cases hf : isFalsy id
  · simp [checkCollisions, hf] at h
  · exact Bool.eq_false_iff.mpr hf

/-- A successful id extraction returning a value comes from a present
attribute list holding a `sub` attribute with that value. -/
theorem getCognitoUserId_ok_some (u : UserType) (s : String)
    (h : getCognitoUserId u = Except.ok (some s)) :
    ∃ attrs sub, u.Attributes = some attrs ∧
      attrs.find? (fun attr => attr.Name = some "sub") = some sub ∧
      sub.Value = some s := by
  unfold getCognitoUserId at h
  split at h
  · simp at h
  · next attrs heq =>
      simp only [Except.ok.injEq] at h
      rcases Option.bind_eq_some.mp h with ⟨a, ha, hv⟩
      exact ⟨attrs, a, heq, ha, hv⟩

/-- C2: every successful registration returns a profile model whose id is
the Value of the `sub` attribute in the attribute list of the identity
record returned by the identity provider. -/
theorem c2_returned_id_is_sub (input : UserCreateInput) (env : Env)
    (m : UserModel) (h : (registerUser input env).1 = Except.ok m) :
    ∃ attrs sub, env.cognitoUser.Attributes = some attrs ∧
      attrs.find? (fun attr => attr.Name = some "sub") = some sub ∧
      sub.Value = some m.user.id := by
  simp only [registerUser, registerCognitoUser] at h
  split at h
  · simp at h
  · split at h
    · simp at h
    · next id hid =>
        split at h
        · simp at h
        · next ev2 hchk =>
            split at h
            · simp at h
            · next ev3 hput =>
                simp only [Except.ok.injEq] at h
                subst h
                have hok : (checkCollisions id env.nanoId env.store).1 =
                    Except.ok () := by rw [hchk]
                rcases isFalsy_false id
                  (checkCollisions_ok_not_falsy id env.nanoId env.store hok)
                  with ⟨s, hs, _⟩
                subst hs
                exact getCognitoUserId_ok_some env.cognitoUser s hid

/-- Witness for C2: a concrete successful registration whose returned id is
the provider's `sub` value. -/
theorem c2_returned_id_is_sub_witness :
    ∃ attrs sub,
      (UserType.mk (some [AttributeType.mk (some "sub") (some "abc")])).Attributes
        = some attrs ∧
      attrs.find? (fun attr => attr.Name = some "sub") = some sub ∧
      sub.Value = some "abc" :=
  c2_returned_id_is_sub
    { name := "n", email := "e", password := "p", repeatPassword := "p",
      sourceIp := "ip", sourceSystem := "web" }
    { cognitoUser := { Attributes := some [{ Name := some "sub", Value := some "abc" }] },
      nanoId := "code", now := "t", store := [], putError := none }
    { user := { id := "abc", createdAt := "t", email := "e", name := "n",
                handle := "@N", activationCode := "code", sourceIp := "ip",
                role := "USER", status := "UNCONFIRMED", badges := ["NEW_MEMBER"],
                bio := { avatarUrl := "default-avatar-url" }, data := [],
                sourceSystem := "web" } }
    (by rfl)

/-- C7: the Jane Doe scenario: with the given raw input, the provider
returning subject id `abc-123` and the guard finding no records, the
registration succeeds, the returned record has the specified normalized
name, handle, id, status and badges, and the same record was sent to the
profile store insert. -/
theorem c7_jane_doe_scenario :
    ∃ m : UserModel,
      (registerUser
        { name := "  Jane   Doe ", email := "jane@x.com", password := "p",
          repeatPassword := "p", sourceIp := "1.2.3.4", sourceSystem := "web" }
        { cognitoUser :=
            { Attributes := some [{ Name := some "sub", Value := some "abc-123" }] },
          nanoId := "XYZ", now := "2024-01-01T00:00:00.000Z", store := [],
          putError := none }).1 = Except.ok m ∧
      m.user.name = "Jane Doe" ∧ m.user.handle = "@JaneDoe" ∧
      m.user.id = "abc-123" ∧ m.user.status = "UNCONFIRMED" ∧
      m.user.badges = ["NEW_MEMBER"] ∧
      Event.dynamoPutItem m.user ∈
        (registerUser
          { name := "  Jane   Doe ", email := "jane@x.com", password := "p",
            repeatPassword := "p", sourceIp := "1.2.3.4", sourceSystem := "web" }
          { cognitoUser :=
              { Attributes := some [{ Name := some "sub", Value := some "abc-123" }] },
            nanoId := "XYZ", now := "2024-01-01T00:00:00.000Z", store := [],
            putError := none }).2 :=
  ⟨_, rfl, rfl, rfl, rfl, rfl, rfl, by decide⟩

/-- C8: the collision guard performs only reads: replaying its trace against
any store contents leaves them unchanged, and the trace contains no insert
call, whether the guard succeeds or fails. -/
theorem c8_guard_does_not_mutate (id : Option String) (code : String)
    (store : List User) :
    applyEvents store (checkCollisions id code store).2 = store ∧
    ∀ e ∈ (checkCollisions id code store).2, isPutEvent e = false := by
  unfold checkCollisions
  split
  · exact ⟨rfl, by intro e he; simp at he⟩
  · split
    · refine ⟨rfl, ?_⟩
      intro e he
      simp at he
      rcases he with h | h <;> subst h <;> rfl
    · split
      · refine ⟨rfl, ?_⟩
        intro e he
        simp at he
        rcases he with h | h | h <;> subst h <;> rfl
      · refine ⟨rfl, ?_⟩
        intro e he
        simp at he
        rcases he with h | h <;> subst h <;> rfl

/-- The only error `getCognitoUserId` itself produces is the type error for
an absent attribute list. -/
theorem getCognitoUserId_error_cases (u : UserType) (e : Err)
    (h : getCognitoUserId u = Except.error e) :
    u.Attributes = none ∧ e = Err.typeError "TypeError: Attributes is undefined" := by
  unfold getCognitoUserId at h
  split at h
  · next hA =>
      simp only [Except.error.injEq] at h
      exact ⟨hA, h.symm⟩
  · simp at h

/-- A successful `getCognitoUserId` comes from a present attribute list, and
returns the Value of its first `sub` attribute. -/
theorem getCognitoUserId_ok_cases (u : UserType) (id : Option String)
    (h : getCognitoUserId u = Except.ok id) :
    ∃ attrs, u.Attributes = some attrs ∧
      id = (attrs.find? (fun attr => attr.Name = some "sub")).bind
        (fun a => a.Value) := by
  unfold getCognitoUserId at h
  split at h
  · simp at h
  · next attrs hA =>
      simp only [Except.ok.injEq] at h
      exact ⟨attrs, hA, h.symm⟩

/-- The three errors the collision guard can produce, and the missing-id one
only for a falsy id. -/
theorem checkCollisions_error_cases (id : Option String) (code : String)
    (store : List User) (e : Err)
    (h : (checkCollisions id code store).1 = Except.error e) :
    (isFalsy id = true ∧
      e = Err.http 500 "User registration failed: Cognito did not return a sub/id") ∨
    e = Err.http 500 "User registration failed: activationCode collision" ∨
    e = Err.http 500 "User registration failed: User id collision" := by
  unfold checkCollisions at h
  split at h
  · next hf =>
      left
      simp only [Except.error.injEq] at h
      exact ⟨hf, h.symm⟩
  · split at h
    · right; left
      simp only [Except.error.injEq] at h
      exact h.symm
    · split at h
      · right; right
        simp only [Except.error.injEq] at h
        exact h.symm
      · simp at h

/-- The two errors the conditional-insert wrapper can produce. -/
theorem createUser_error_cases (u : User) (pe : Option (String × String))
    (e : Err) (h : (createUser u pe).1 = Except.error e) :
    (∃ msg, e = Err.http 400 msg) ∨
    e = Err.http 500 "User registration error" := by
  unfold createUser at h
  split at h
  · simp at h
  · next n m =>
      split at h
      · left
        simp only [Except.error.injEq] at h
        exact ⟨_, h.symm⟩
      · right
        simp only [Except.error.injEq] at h
        exact h.symm

/-- C3 counterexample: with the provider response lacking its attribute list
entirely (hence lacking any `sub` attribute), registration fails with a
JavaScript type error, not with any HTTP-style (hence not a 500-class)
error. -/
theorem c3_counterexample_absent_attribute_list :
    (registerUser
      { name := "n", email := "e", password := "p", repeatPassword := "p",
        sourceIp := "ip", sourceSystem := "web" }
      { cognitoUser := { Attributes := none }, nanoId := "c", now := "t",
        store := [], putError := none }).1 =
      Except.error (Err.typeError "TypeError: Attributes is undefined") ∧
    resultIsHttpError
      (registerUser
        { name := "n", email := "e", password := "p", repeatPassword := "p",
          sourceIp := "ip", sourceSystem := "web" }
        { cognitoUser := { Attributes := none }, nanoId := "c", now := "t",
          store := [], putError := none }).1 = false :=
  ⟨rfl, rfl⟩

/-- C3 (amended): when the provider's identity response carries an attribute
list but it has no `sub` entry, or the `sub` value is empty or missing,
registration fails with the 500-class missing-id error and no profile-store
call (neither lookup nor insert) occurs. (As stated the claim also covered
an entirely absent attribute list, where the code instead fails with a type
error; see the counterexample.) -/
theorem c3_missing_sub_fails_before_store (input : UserCreateInput) (env : Env)
    (attrs : List AttributeType)
    (hp : input.password = input.repeatPassword)
    (hA : env.cognitoUser.Attributes = some attrs)
    (hsub : isFalsy ((attrs.find? (fun attr => attr.Name = some "sub")).bind
      (fun a => a.Value)) = true) :
    (registerUser input env).1 =
      Except.error (Err.http 500
        "User registration failed: Cognito did not return a sub/id") ∧
    ∀ e ∈ (registerUser input env).2, isStoreEvent e = false := by
  have hne : ¬ input.password ≠ input.repeatPassword := by simp [hp]
  constructor
  · simp [registerUser, registerCognitoUser, hne, getCognitoUserId, hA,
      checkCollisions, hsub]
  · intro e he
    simp [registerUser, registerCognitoUser, hne, getCognitoUserId, hA,
      checkCollisions, hsub] at he
    rcases he with h | h | h | h <;> subst h <;> rfl

/-- Witness for the amended C3 at a concrete input with an empty attribute
list. -/
theorem c3_missing_sub_fails_before_store_witness :
    (registerUser
      { name := "n", email := "e", password := "p", repeatPassword := "p",
        sourceIp := "ip", sourceSystem := "web" }
      { cognitoUser := { Attributes := some [] }, nanoId := "c", now := "t",
        store := [], putError := none }).1 =
      Except.error (Err.http 500
        "User registration failed: Cognito did not return a sub/id") ∧
    ∀ e ∈ (registerUser
      { name := "n", email := "e", password := "p", repeatPassword := "p",
        sourceIp := "ip", sourceSystem := "web" }
      { cognitoUser := { Attributes := some [] }, nanoId := "c", now := "t",
        store := [], putError := none }).2, isStoreEvent e = false :=
  c3_missing_sub_fails_before_store _ _ [] (by decide) rfl (by decide)

/-- C4: when the lookup by the candidate activationCode finds an existing
record, registration fails with the 500-class activationCode-collision
error, and the trace contains neither a lookup by id nor an insert. -/
theorem c4_activation_code_collision (input : UserCreateInput) (env : Env)
    (u : User) (s : String)
    (hp : input.password = input.repeatPassword)
    (hid : getCognitoUserId env.cognitoUser = Except.ok (some s))
    (hs : s ≠ "")
    (hcode : getUserByActivationCode env.nanoId env.store = some u) :
    (registerUser input env).1 =
      Except.error (Err.http 500
        "User registration failed: activationCode collision") ∧
    ∀ e ∈ (registerUser input env).2,
      isGetByIdEvent e = false ∧ isPutEvent e = false := by
  have hne : ¬ input.password ≠ input.repeatPassword := by simp [hp]
  constructor
  · simp [registerUser, registerCognitoUser, hne, hid, checkCollisions,
      isFalsy, hs, hcode]
  · intro e he
    simp [registerUser, registerCognitoUser, hne, hid, checkCollisions,
      isFalsy, hs, hcode] at he
    rcases he with h | h | h | h | h | h <;> subst h <;> exact ⟨rfl, rfl⟩

/-- Witness for C4 at a concrete input whose store already holds the
candidate activation code. -/
theorem c4_activation_code_collision_witness :
    (registerUser
      { name := "n", email := "e", password := "p", repeatPassword := "p",
        sourceIp := "ip", sourceSystem := "web" }
      { cognitoUser := { Attributes := some [{ Name := some "sub", Value := some "abc" }] },
        nanoId := "c",
        now := "t",
        store := [{ id := "other", createdAt := "t0", email := "o@x", name := "o",
                    handle := "@O", activationCode := "c", sourceIp := "ip0",
                    role := "USER", status := "UNCONFIRMED", badges := [],
                    bio := { avatarUrl := "a" }, data := [], sourceSystem := "web" }],
        putError := none }).1 =
      Except.error (Err.http 500
        "User registration failed: activationCode collision") ∧
    ∀ e ∈ (registerUser
      { name := "n", email := "e", password := "p", repeatPassword := "p",
        sourceIp := "ip", sourceSystem := "web" }
      { cognitoUser := { Attributes := some [{ Name := some "sub", Value := some "abc" }] },
        nanoId := "c",
        now := "t",
        store := [{ id := "other", createdAt := "t0", email := "o@x", name := "o",
                    handle := "@O", activationCode := "c", sourceIp := "ip0",
                    role := "USER", status := "UNCONFIRMED", badges := [],
                    bio := { avatarUrl := "a" }, data := [], sourceSystem := "web" }],
        putError := none }).2,
      isGetByIdEvent e = false ∧ isPutEvent e = false :=
  c4_activation_code_collision _ _
    { id := "other", createdAt := "t0", email := "o@x", name := "o",
      handle := "@O", activationCode := "c", sourceIp := "ip0",
      role := "USER", status := "UNCONFIRMED", badges := [],
      bio := { avatarUrl := "a" }, data := [], sourceSystem := "web" }
    "abc" (by decide) (by rfl) (by decide) (by rfl)

/-- C5: when the activationCode lookup finds nothing but the lookup by the
candidate id finds an existing record, registration fails with the
500-class id-collision error and the trace contains no insert. -/
theorem c5_user_id_collision (input : UserCreateInput) (env : Env)
    (u : User) (s : String)
    (hp : input.password = input.repeatPassword)
    (hid : getCognitoUserId env.cognitoUser = Except.ok (some s))
    (hs : s ≠ "")
    (hcode : getUserByActivationCode env.nanoId env.store = none)
    (hbyid : getUserById s env.store = some u) :
    (registerUser input env).1 =
      Except.error (Err.http 500 "User registration failed: User id collision") ∧
    ∀ e ∈ (registerUser input env).2, isPutEvent e = false := by
  have hne : ¬ input.password ≠ input.repeatPassword := by simp [hp]
  constructor
  · simp [registerUser, registerCognitoUser, hne, hid, checkCollisions,
      isFalsy, hs, hcode, hbyid]
  · intro e he
    simp [registerUser, registerCognitoUser, hne, hid, checkCollisions,
      isFalsy, hs, hcode, hbyid] at he
    rcases he with h | h | h | h | h | h | h <;> subst h <;> rfl

/-- Witness for C5 at a concrete input whose store already holds the
candidate id under a different activation code. -/
theorem c5_user_id_collision_witness :
    (registerUser
      { name := "n", email := "e", password := "p", repeatPassword := "p",
        sourceIp := "ip", sourceSystem := "web" }
      { cognitoUser := { Attributes := some [{ Name := some "sub", Value := some "abc" }] },
        nanoId := "c",
        now := "t",
        store := [{ id := "abc", createdAt := "t0", email := "o@x", name := "o",
                    handle := "@O", activationCode := "other", sourceIp := "ip0",
                    role := "USER", status := "UNCONFIRMED", badges := [],
                    bio := { avatarUrl := "a" }, data := [], sourceSystem := "web" }],
        putError := none }).1 =
      Except.error (Err.http 500 "User registration failed: User id collision") ∧
    ∀ e ∈ (registerUser
      { name := "n", email := "e", password := "p", repeatPassword := "p",
        sourceIp := "ip", sourceSystem := "web" }
      { cognitoUser := { Attributes := some [{ Name := some "sub", Value := some "abc" }] },
        nanoId := "c",
        now := "t",
        store := [{ id := "abc", createdAt := "t0", email := "o@x", name := "o",
                    handle := "@O", activationCode := "other", sourceIp := "ip0",
                    role := "USER", status := "UNCONFIRMED", badges := [],
                    bio := { avatarUrl := "a" }, data := [], sourceSystem := "web" }],
        putError := none }).2,
      isPutEvent e = false :=
  c5_user_id_collision _ _
    { id := "abc", createdAt := "t0", email := "o@x", name := "o",
      handle := "@O", activationCode := "other", sourceIp := "ip0",
      role := "USER", status := "UNCONFIRMED", badges := [],
      bio := { avatarUrl := "a" }, data := [], sourceSystem := "web" }
    "abc" (by decide) (by rfl) (by decide) (by rfl) (by rfl)

/-- C6: a failed conditional insert maps a ConditionalCheckFailedException
to a 400-class already-exists error (with no log), and any other store
failure to a 500-class generic error after logging the underlying error
name and message. -/
theorem c6_store_insert_failure_mapping (u : User) (errName errMessage : String) :
    (createUser u (some (errName, errMessage))).1 =
      (if errName = "ConditionalCheckFailedException" then
        Except.error (Err.http 400 ("User id " ++ u.id ++ " already exists"))
      else Except.error (Err.http 500 "User registration error")) ∧
    (createUser u (some (errName, errMessage))).2 =
      (if errName = "ConditionalCheckFailedException" then
        [Event.dynamoPutItem u]
      else
        [Event.dynamoPutItem u,
         Event.logError ("createUser " ++ errName ++ ": " ++ errMessage)]) := by
  unfold createUser
  by_cases h : errName = "ConditionalCheckFailedException" <;> simp [h]

/-- C9 counterexample: a registration failing because the provider returned
no subject id (attribute list present but empty) raises the 500-class
missing-id error with no error-level log anywhere in its trace. -/
theorem c9_counterexample_missing_id_unlogged :
    (registerUser
      { name := "n", email := "e", password := "p", repeatPassword := "p",
        sourceIp := "ip", sourceSystem := "web" }
      { cognitoUser := { Attributes := some [] }, nanoId := "cc", now := "t",
        store := [], putError := none }).1 =
      Except.error (Err.http 500
        "User registration failed: Cognito did not return a sub/id") ∧
    ((registerUser
      { name := "n", email := "e", password := "p", repeatPassword := "p",
        sourceIp := "ip", sourceSystem := "web" }
      { cognitoUser := { Attributes := some [] }, nanoId := "cc", now := "t",
        store := [], putError := none }).2.all
      (fun e => !isErrorLogEvent e)) = true :=
  ⟨rfl, rfl⟩

/-- C9 (amended): a registration failing because the provider returned no
subject id raises the 500-class missing-id error, but nothing is logged at
error level at the point of detection (or anywhere in the run); only the
two collision failures are logged at error level. -/
theorem c9_missing_id_error_not_logged (input : UserCreateInput) (env : Env)
    (id : Option String)
    (hp : input.password = input.repeatPassword)
    (hid : getCognitoUserId env.cognitoUser = Except.ok id)
    (hf : isFalsy id = true) :
    (registerUser input env).1 =
      Except.error (Err.http 500
        "User registration failed: Cognito did not return a sub/id") ∧
    ∀ e ∈ (registerUser input env).2, isErrorLogEvent e = false := by
  have hne : ¬ input.password ≠ input.repeatPassword := by simp [hp]
  constructor
  · simp [registerUser, registerCognitoUser, hne, hid, checkCollisions, hf]
  · intro e he
    simp [registerUser, registerCognitoUser, hne, hid, checkCollisions, hf] at he
    rcases he with h | h | h | h <;> subst h <;> rfl

/-- Witness for the amended C9 at a concrete input with an empty attribute
list. -/
theorem c9_missing_id_error_not_logged_witness :
    (registerUser
      { name := "n", email := "e", password := "p", repeatPassword := "p",
        sourceIp := "ip", sourceSystem := "web" }
      { cognitoUser := { Attributes := some [] }, nanoId := "c", now := "t",
        store := [], putError := none }).1 =
      Except.error (Err.http 500
        "User registration failed: Cognito did not return a sub/id") ∧
    ∀ e ∈ (registerUser
      { name := "n", email := "e", password := "p", repeatPassword := "p",
        sourceIp := "ip", sourceSystem := "web" }
      { cognitoUser := { Attributes := some [] }, nanoId := "c", now := "t",
        store := [], putError := none }).2, isErrorLogEvent e = false :=
  c9_missing_id_error_not_logged _ _ none (by decide) (by rfl) (by decide)

/-- C10: when the provider's attribute list is entirely absent, the id
extraction dereferences it and registration fails with an unhandled type
error, not the 500-class missing-id error; conversely the 500-class
missing-id error is reached only when an attribute list is present but
holds no `sub` entry or an empty/missing value. -/
theorem c10_absent_attribute_list_type_error (input : UserCreateInput)
    (env : Env) (hp : input.password = input.repeatPassword) :
    (env.cognitoUser.Attributes = none →
      (registerUser input env).1 =
        Except.error (Err.typeError "TypeError: Attributes is undefined")) ∧
    ((registerUser input env).1 =
        Except.error (Err.http 500
          "User registration failed: Cognito did not return a sub/id") →
      ∃ attrs, env.cognitoUser.Attributes = some attrs ∧
        isFalsy ((attrs.find? (fun attr => attr.Name = some "sub")).bind
          (fun a => a.Value)) = true) := by
  have hne : ¬ input.password ≠ input.repeatPassword := by simp [hp]
  constructor
  · intro hA
    simp [registerUser, registerCognitoUser, hne, getCognitoUserId, hA]
  · intro h
    simp only [registerUser, registerCognitoUser] at h
    rw [if_neg hne] at h
    split at h
    · next e heq =>
        rcases getCognitoUserId_error_cases env.cognitoUser e heq with ⟨_, he⟩
        subst he
        simp at h
    · next id heq =>
        split at h
        · next e ev2 hchk =>
            simp only [Except.error.injEq] at h
            subst h
            have hc : (checkCollisions id env.nanoId env.store).1 =
                Except.error (Err.http 500
                  "User registration failed: Cognito did not return a sub/id") := by
              rw [hchk]
            rcases checkCollisions_error_cases _ _ _ _ hc with ⟨hf, _⟩ | hbad | hbad
            · rcases getCognitoUserId_ok_cases env.cognitoUser id heq with
                ⟨attrs, hA, hid_eq⟩
              subst hid_eq
              exact ⟨attrs, hA, hf⟩
            · exact absurd (Err.http.inj hbad).2 (by decide)
            · exact absurd (Err.http.inj hbad).2 (by decide)
        · next ev2 hchk =>
            split at h
            · next e ev3 hput =>
                simp only [Except.error.injEq] at h
                subst h
                have hc := congrArg Prod.fst hput
                rcases createUser_error_cases _ _ _ hc with ⟨msg, hbad⟩ | hbad
                · exact absurd (Err.http.inj hbad).1 (by decide)
                · exact absurd (Err.http.inj hbad).2 (by decide)
            · simp at h

/-- Witness for C10: at a concrete run whose provider response carries an
empty attribute list, the 500-class missing-id outcome indeed comes with a
present attribute list whose `sub` extraction is falsy. -/
theorem c10_absent_attribute_list_type_error_witness :
    ∃ attrs, (UserType.mk (some ([] : List AttributeType))).Attributes = some attrs ∧
      isFalsy ((attrs.find? (fun attr => attr.Name = some "sub")).bind
        (fun a => a.Value)) = true :=
  (c10_absent_attribute_list_type_error
    { name := "n", email := "e", password := "p", repeatPassword := "p",
      sourceIp := "ip", sourceSystem := "web" }
    { cognitoUser := { Attributes := some [] }, nanoId := "c", now := "t",
      store := [], putError := none } (by decide)).2 (by rfl)
